import Mathlib

/-!
Verification of the credential-issuance workflow of the
blockchain-education repository (src/src/pages/CredentialUpload.jsx).

The component is embedded shallowly: component state (`ComponentState`),
the wallet/contract context and the outcomes of the awaited external
calls (`SubmitEnv`, `FileEnv`) are explicit inputs, and each handler is a
pure function returning the next component state together with the list
of observable effects (`Event`) it performed, in order.

The local certificate hash `ethers.keccak256(ethers.toUtf8Bytes(
JSON.stringify(metadata)))` is modelled by a full executable Keccak-256
over the UTF-8 bytes of the JSON serialization of the metadata record.
-/

namespace CredentialUpload

/-! ### Keccak-256 (the hash behind ethers.keccak256) -/

/-- Low 64-bit mask. -/
def mask64 : Nat := 2 ^ 64 - 1

/-- Rotate a 64-bit word left by `n`. -/
def rotl64 (x n : Nat) : Nat :=
  ((x <<< (n % 64)) ||| (x >>> (64 - n % 64))) % (2 ^ 64)

/-- Keccak rho rotation offsets, one row per `y`, flattened with lane
index `x + 5 * y`. -/
def rotOffsets : List Nat :=
  [[0, 1, 62, 28, 27],
   [36, 44, 6, 55, 20],
   [3, 10, 43, 25, 39],
   [41, 45, 15, 21, 8],
   [18, 2, 61, 56, 14]].flatten

/-- Keccak-f[1600] round constants. -/
def roundConstants : List Nat :=
  [0x0000000000000001, 0x0000000000008082, 0x800000000000808a, 0x8000000080008000,
   0x000000000000808b, 0x0000000080000001, 0x8000000080008081, 0x8000000000008009,
   0x000000000000008a, 0x0000000000000088, 0x0000000080008009, 0x000000008000000a,
   0x000000008000808b, 0x800000000000008b, 0x8000000000008089, 0x8000000000008003,
   0x8000000000008002, 0x8000000000000080, 0x000000000000800a, 0x800000008000000a,
   0x8000000080008081, 0x8000000000008080, 0x0000000080000001, 0x8000000080008008]

/-- Lane `(x, y)` of a 25-lane state, coordinates taken mod 5. -/
def lane (s : List Nat) (x y : Nat) : Nat :=
  s.getD (x % 5 + 5 * (y % 5)) 0

/-- Keccak theta step. -/
def theta (s : List Nat) : List Nat :=
  let c := fun x => lane s x 0 ^^^ lane s x 1 ^^^ lane s x 2 ^^^ lane s x 3 ^^^ lane s x 4
  let d := fun x => c ((x + 4) % 5) ^^^ rotl64 (c ((x + 1) % 5)) 1
  (List.range 25).map (fun i => s.getD i 0 ^^^ d (i % 5))

/-- Keccak rho and pi steps combined: output lane `(x', y')` is the rotated
input lane `(x' + 3 * y', x')`. -/
def rhoPi (s : List Nat) : List Nat :=
  (List.range 25).map (fun i =>
    let ox := i % 5
    let oy := i / 5
    let x := (ox + 3 * oy) % 5
    let y := ox
    rotl64 (lane s x y) (rotOffsets.getD (x + 5 * y) 0))

/-- Keccak chi step. -/
def chi (s : List Nat) : List Nat :=
  (List.range 25).map (fun i =>
    let x := i % 5
    let y := i / 5
    lane s x y ^^^ (((lane s (x + 1) y) ^^^ mask64) &&& lane s (x + 2) y))

/-- Keccak iota step: xor the round constant into lane (0,0). -/
def iotaStep (rc : Nat) (s : List Nat) : List Nat :=
  match s with
  | [] => []
  | a :: r => (a ^^^ rc) :: r

/-- The Keccak-f[1600] permutation: 24 rounds of theta, rho/pi, chi, iota. -/
def keccakF (s : List Nat) : List Nat :=
  roundConstants.foldl (fun st rc => iotaStep rc (chi (rhoPi (theta st)))) s

/-- Interpret up to 8 bytes as a little-endian 64-bit lane. -/
def bytesToLane (bs : List Nat) : Nat :=
  bs.foldr (fun b acc => b + 256 * acc) 0

/-- Lane `i` of a 136-byte rate block. -/
def blockLane (block : List Nat) (i : Nat) : Nat :=
  bytesToLane ((block.drop (8 * i)).take 8)

/-- Xor a 136-byte block into the first 17 lanes of the state. -/
def xorBlock (s block : List Nat) : List Nat :=
  (List.range 25).map (fun i =>
    if i < 17 then s.getD i 0 ^^^ blockLane block i else s.getD i 0)

/-- Absorb a padded message, 136 bytes (one rate block) at a time. -/
def absorb : List Nat → List Nat → List Nat
  | s, [] => s
  | s, b :: bs => absorb (keccakF (xorBlock s ((b :: bs).take 136))) ((b :: bs).drop 136)
termination_by _ bs => bs.length
decreasing_by simp [List.length_drop]; omega

/-- Keccak pad10*1 padding (0x01 domain byte) for rate 136, given the
message length. -/
def keccakPad (len : Nat) : List Nat :=
  let padLen := 136 - len % 136
  if padLen = 1 then [0x81]
  else 0x01 :: (List.replicate (padLen - 2) 0 ++ [0x80])

/-- Keccak-256 digest of a byte sequence, as 32 bytes. -/
def keccak256 (msg : List Nat) : List Nat :=
  let final := absorb (List.replicate 25 0) (msg ++ keccakPad msg.length)
  ((final.take 4).map (fun l => (List.range 8).map (fun i => (l >>> (8 * i)) % 256))).flatten

/-- Lowercase hex digit for a value below 16. -/
def hexDigit (n : Nat) : Char :=
  if n < 10 then Char.ofNat (48 + n) else Char.ofNat (87 + n)

/-- Two lowercase hex digits for a byte. -/
def byteToHex (b : Nat) : String :=
  String.mk [hexDigit (b / 16), hexDigit (b % 16)]

/-- Keccak-256 digest of a byte sequence as a 0x-prefixed lowercase hex
string, the format ethers.keccak256 returns. -/
def keccak256hex (msg : List Nat) : String :=
  "0x" ++ String.join ((keccak256 msg).map byteToHex)

/-! ### UTF-8 encoding (ethers.toUtf8Bytes) and JSON.stringify -/

/-- UTF-8 bytes of one Unicode code point. -/
def utf8EncodeChar (c : Char) : List Nat :=
  let n := c.toNat
  if n < 0x80 then [n]
  else if n < 0x800 then [0xc0 + n / 64, 0x80 + n % 64]
  else if n < 0x10000 then [0xe0 + n / 4096, 0x80 + (n / 64) % 64, 0x80 + n % 64]
  else [0xf0 + n / 262144, 0x80 + (n / 4096) % 64, 0x80 + (n / 64) % 64, 0x80 + n % 64]

/-- UTF-8 bytes of a string, as ethers.toUtf8Bytes produces them. -/
def utf8Bytes (s : String) : List Nat :=
  (s.data.map utf8EncodeChar).flatten

/-- JSON string escaping of one character, as JSON.stringify performs it. -/
def jsonEscapeChar (c : Char) : List Char :=
  if c = '"' then ['\\', '"']
  else if c = '\\' then ['\\', '\\']
  else if c = '\x08' then ['\\', 'b']
  else if c = '\x09' then ['\\', 't']
  else if c = '\x0a' then ['\\', 'n']
  else if c = '\x0c' then ['\\', 'f']
  else if c = '\x0d' then ['\\', 'r']
  else if c.toNat < 32 then
    ['\\', 'u', '0', '0', hexDigit (c.toNat / 16), hexDigit (c.toNat % 16)]
  else [c]

/-- A JSON string literal for `s`: quoted and escaped. -/
def jsonString (s : String) : String :=
  String.mk ('"' :: (s.data.map jsonEscapeChar).flatten ++ ['"'])

/-! ### Data model of the issuance component -/

/-- The `formData` state object of CredentialUpload, fields in source
declaration order (lines 14-21). -/
structure FormData where
  studentAddress : String
  studentName : String
  credentialType : String
  institution : String
  imageHash : String
  imageUrl : String
deriving DecidableEq

/-- The credential metadata document built in handleSubmit
(lines 106-115). -/
structure Metadata where
  studentName : String
  studentAddress : String
  credentialType : String
  institution : String
  issuerAddress : String
  imageHash : String
  imageUrl : String
  issueDate : String
deriving DecidableEq

/-- `JSON.stringify` of the metadata object: keys in insertion order,
all values strings. -/
def stringifyMetadata (m : Metadata) : String :=
  "\x7b\"studentName\":" ++ jsonString m.studentName ++
  ",\"studentAddress\":" ++ jsonString m.studentAddress ++
  ",\"credentialType\":" ++ jsonString m.credentialType ++
  ",\"institution\":" ++ jsonString m.institution ++
  ",\"issuerAddress\":" ++ jsonString m.issuerAddress ++
  ",\"imageHash\":" ++ jsonString m.imageHash ++
  ",\"imageUrl\":" ++ jsonString m.imageUrl ++
  ",\"issueDate\":" ++ jsonString m.issueDate ++ "\x7d"

/-- The local certificate hash of lines 128-130:
`ethers.keccak256(ethers.toUtf8Bytes(JSON.stringify(metadata)))`. -/
def certificateHash (m : Metadata) : String :=
  keccak256hex (utf8Bytes (stringifyMetadata m))

/-- The metadata document built from the form, the connected account and
the current time (`new Date().toISOString()`), as in lines 106-115. -/
def mkMetadata (fd : FormData) (account now : String) : Metadata :=
  { studentName := fd.studentName
    studentAddress := fd.studentAddress
    credentialType := fd.credentialType
    institution := fd.institution
    issuerAddress := account
    imageHash := fd.imageHash
    imageUrl := fd.imageUrl
    issueDate := now }

/-- The local React state of the CredentialUpload component
(lines 11-23). -/
structure ComponentState where
  step : Nat
  uploading : Bool
  imagePreview : Option String
  formData : FormData
  isBlockchainUploading : Bool
  isSubmitting : Bool
deriving DecidableEq

/-- A file selected in the file input: its MIME type and its size in
bytes. -/
structure SelFile where
  ftype : String
  size : Nat
deriving DecidableEq

/-- Observable effects of a handler run, in the order they are
performed: alert dialogs, storage uploads, toast notifications, the
contract call with its argument tuple, and the confirmation wait. -/
inductive Event where
  | alertMsg (msg : String)
  | uploadImageCall (f : SelFile)
  | uploadJSONCall (m : Metadata)
  | toastLoading (msg : String)
  | toastSuccess (msg : String)
  | toastError (msg : String)
  | contractCall (subjectAddress contentHash fileHash metadataHash fromAccount : String)
  | txWait
deriving DecidableEq

/-- Whether an event is the contract issueCredential call. -/
def Event.isContractCall : Event → Bool
  | .contractCall _ _ _ _ _ => true
  | _ => false

/-- Whether an event is a storage upload of the selected file. -/
def Event.isUploadImage : Event → Bool
  | .uploadImageCall _ => true
  | _ => false

/-- Whether an event is the confirmation wait `tx.wait()`. -/
def Event.isTxWait : Event → Bool
  | .txWait => true
  | _ => false

/-- The run issued a contract call. -/
def containsContractCall (evs : List Event) : Bool :=
  evs.any Event.isContractCall

/-- The run started a storage upload of the selected file. -/
def containsUploadImage (evs : List Event) : Bool :=
  evs.any Event.isUploadImage

/-- The run waited for transaction confirmation. -/
def containsTxWait (evs : List Event) : Bool :=
  evs.any Event.isTxWait

/-! ### handleFileChange (lines 31-70) -/

instance {ε α : Type} [DecidableEq ε] [DecidableEq α] : DecidableEq (Except ε α) := fun a b =>
  match a, b with
  | .ok x, .ok y =>
    if h : x = y then isTrue (by rw [h]) else isFalse (fun he => by cases he; exact h rfl)
  | .ok _, .error _ => isFalse (fun he => by cases he)
  | .error _, .ok _ => isFalse (fun he => by cases he)
  | .error x, .error y =>
    if h : x = y then isTrue (by rw [h]) else isFalse (fun he => by cases he; exact h rfl)

/-- Outcomes of the external calls awaited by handleFileChange: the
FileReader data URL for the preview, and the result of
`ipfsService.uploadImage` (content hash and retrieval URL on success,
error message on rejection). -/
structure FileEnv where
  readerResult : String
  uploadImageResult : Except String (String × String)
deriving DecidableEq

/-- The accepted MIME types of line 36. -/
def validTypes : List String :=
  ["image/jpeg", "image/png", "image/gif", "application/pdf",
   "application/vnd.openxmlformats-officedocument.wordprocessingml.document"]

/-- The file-change handler of lines 31-70: validate the MIME type, set
the uploading flag, set or clear the image preview, upload the file to
storage, and on success store the returned hash and URL in the form
state; on failure clear the preview; always reset the uploading flag. -/
def handleFileChange (env : FileEnv) (s : ComponentState) (file : Option SelFile) :
    ComponentState × List Event :=
  match file with
  | none => (s, [])
  | some f =>
    if ¬ validTypes.contains f.ftype then
      (s, [Event.alertMsg "Please upload an image (JPEG, PNG, GIF), PDF, or DOCX file"])
    else
      let s1 := { s with uploading := true }
      let s2 :=
        if f.ftype.startsWith "image/" then { s1 with imagePreview := some env.readerResult }
        else { s1 with imagePreview := none }
      match env.uploadImageResult with
      | .ok hu =>
        ({ s2 with
            formData := { s2.formData with imageHash := hu.1, imageUrl := hu.2 }
            uploading := false },
         [Event.uploadImageCall f])
      | .error _ =>
        ({ s2 with imagePreview := none, uploading := false },
         [Event.uploadImageCall f])

/-! ### handleSubmit (lines 80-167) -/

/-- The wallet/contract context and the outcomes of the external calls
awaited by handleSubmit: the connected account (absent when
unconnected), whether a contract client is available, the current
timestamp string, and the results of `ipfsService.uploadJSON`, of
`contract.issueCredential` and of `tx.wait()`. -/
structure SubmitEnv where
  account : Option String
  contract : Bool
  now : String
  uploadJSONResult : Except String String
  issueCredentialResult : Except String Unit
  waitResult : Except String Unit
deriving DecidableEq

/-- Set the three in-flight flags, as lines 100-102 do. -/
def startFlags (s : ComponentState) : ComponentState :=
  { s with isSubmitting := true, uploading := true, isBlockchainUploading := true }

/-- Clear the three in-flight flags, as the finally block
(lines 162-166) does. -/
def clearFlags (s : ComponentState) : ComponentState :=
  { s with isSubmitting := false, uploading := false, isBlockchainUploading := false }

/-- The try/catch/finally body of handleSubmit (lines 104-166), entered
once the guard and the three precondition checks have passed. Each
arm ends with the finally block clearing the in-flight flags. -/
def submitBody (env : SubmitEnv) (s : ComponentState) (account : String) :
    ComponentState × List Event :=
  let metadata := mkMetadata s.formData account env.now
  let s1 := startFlags s
  match env.uploadJSONResult with
  | .error e =>
    (clearFlags s1,
     [Event.uploadJSONCall metadata,
      Event.toastLoading "Uploading metadata...",
      Event.toastError "Failed to upload metadata",
      Event.toastError ("Failed to issue credential: " ++ e)])
  | .ok metadataHash =>
    match env.issueCredentialResult with
    | .error e =>
      (clearFlags s1,
       [Event.uploadJSONCall metadata,
        Event.toastLoading "Uploading metadata...",
        Event.toastSuccess "Metadata uploaded successfully",
        Event.contractCall s.formData.studentAddress (certificateHash metadata)
          s.formData.imageHash metadataHash account,
        Event.toastLoading "Confirming transaction...",
        Event.toastError "Transaction failed",
        Event.toastError ("Failed to issue credential: " ++ e)])
    | .ok _ =>
      match env.waitResult with
      | .error e =>
        (clearFlags s1,
         [Event.uploadJSONCall metadata,
          Event.toastLoading "Uploading metadata...",
          Event.toastSuccess "Metadata uploaded successfully",
          Event.contractCall s.formData.studentAddress (certificateHash metadata)
            s.formData.imageHash metadataHash account,
          Event.toastLoading "Confirming transaction...",
          Event.toastSuccess "Transaction sent successfully",
          Event.txWait,
          Event.toastLoading "Waiting for blockchain confirmation...",
          Event.toastError "Transaction failed",
          Event.toastError ("Failed to issue credential: " ++ e)])
      | .ok _ =>
        (clearFlags { s1 with step := 2 },
         [Event.uploadJSONCall metadata,
          Event.toastLoading "Uploading metadata...",
          Event.toastSuccess "Metadata uploaded successfully",
          Event.contractCall s.formData.studentAddress (certificateHash metadata)
            s.formData.imageHash metadataHash account,
          Event.toastLoading "Confirming transaction...",
          Event.toastSuccess "Transaction sent successfully",
          Event.txWait,
          Event.toastLoading "Waiting for blockchain confirmation...",
          Event.toastSuccess "Credential issued successfully!"])

/-- The submission handler of lines 80-167: the in-flight guard, the
three precondition checks with their error toasts, then the
try/catch/finally submission sequence. -/
def handleSubmit (env : SubmitEnv) (s : ComponentState) : ComponentState × List Event :=
  if s.isSubmitting then (s, [])
  else if s.formData.imageHash = "" then
    (s, [Event.toastError "Please upload a certificate file first"])
  else
    match env.account with
    | none => (s, [Event.toastError "Please connect your wallet first"])
    | some account =>
      if ¬ env.contract then (s, [Event.toastError "Contract not initialized"])
      else submitBody env s account

/-! ### Concrete instances used by the witnesses -/

/-- A filled form with an uploaded file hash. -/
def sampleForm : FormData :=
  { studentAddress := "0x1111111111111111111111111111111111111111"
    studentName := "Ada Lovelace"
    credentialType := "degree"
    institution := "Example University"
    imageHash := "QmFileHash123"
    imageUrl := "https://gateway.pinata.cloud/ipfs/QmFileHash123" }

/-- The initial empty form of lines 14-21. -/
def emptyFormData : FormData :=
  { studentAddress := ""
    studentName := ""
    credentialType := ""
    institution := ""
    imageHash := ""
    imageUrl := "" }

/-- A component state ready to submit. -/
def sampleState : ComponentState :=
  { step := 1
    uploading := false
    imagePreview := none
    formData := sampleForm
    isBlockchainUploading := false
    isSubmitting := false }

/-- The sample state while a submission is already in flight. -/
def inFlightState : ComponentState :=
  { sampleState with isSubmitting := true }

/-- A state with no uploaded file hash while a file upload is still in
progress. -/
def uploadingEmptyHashState : ComponentState :=
  { step := 1
    uploading := true
    imagePreview := none
    formData := emptyFormData
    isBlockchainUploading := false
    isSubmitting := false }

/-- An environment in which the wallet is connected, the contract client
is available and every external call succeeds. -/
def sampleEnvOk : SubmitEnv :=
  { account := some "0x2222222222222222222222222222222222222222"
    contract := true
    now := "2026-10-11T00:00:00.000Z"
    uploadJSONResult := .ok "QmMetaHash456"
    issueCredentialResult := .ok ()
    waitResult := .ok () }

/-- The successful environment with the wallet disconnected. -/
def envNoWallet : SubmitEnv :=
  { sampleEnvOk with account := none }

/-- The successful environment with the metadata upload rejecting. -/
def envUploadFails : SubmitEnv :=
  { sampleEnvOk with uploadJSONResult := .error "ipfs unreachable" }

/-- The metadata document the sample submission builds. -/
def sampleMetadata : Metadata :=
  mkMetadata sampleForm "0x2222222222222222222222222222222222222222" "2026-10-11T00:00:00.000Z"

/-- A file-change environment whose storage upload succeeds. -/
def fileEnvOk : FileEnv :=
  { readerResult := "data:image/png;base64,QUJD"
    uploadImageResult := .ok ("QmNewFileHash", "https://gateway.pinata.cloud/ipfs/QmNewFileHash") }

/-- A file-change environment whose storage upload rejects. -/
def fileEnvErr : FileEnv :=
  { readerResult := "data:image/png;base64,QUJD"
    uploadImageResult := .error "upload failed" }

/-- A small PNG file. -/
def smallPng : SelFile :=
  { ftype := "image/png", size := 4096 }

/-- A PNG file one byte over the 10MB limit stated in the UI. -/
def oversizedPng : SelFile :=
  { ftype := "image/png", size := 10485761 }

/-- A file of a MIME type outside the accepted set. -/
def plainTextFile : SelFile :=
  { ftype := "text/plain", size := 100 }

/-! ### Claim theorems -/

/-- Claim C1: in every run of handleSubmit, the contract issueCredential
call is issued only when a non-empty file content hash is present in the
form state and the awaited metadata upload has resolved successfully. -/
theorem contract_call_requires_successful_uploads (env : SubmitEnv) (s : ComponentState)
    (h : containsContractCall (handleSubmit env s).2 = true) :
    s.formData.imageHash ≠ "" ∧ env.uploadJSONResult.isOk = true := by
  rcases env with ⟨acc, c, now, uj, ic, w⟩
  by_cases h1 : s.isSubmitting
  · simp [handleSubmit, h1, containsContractCall] at h
  by_cases h2 : s.formData.imageHash = ""
  · simp [handleSubmit, h1, h2, containsContractCall, Event.isContractCall] at h
  refine ⟨h2, ?_⟩
  rcases acc with _ | a
  · simp [handleSubmit, h1, h2, containsContractCall, Event.isContractCall] at h
  rcases c with _ | _
  · simp [handleSubmit, h1, h2, containsContractCall, Event.isContractCall] at h
  rcases uj with e | mh
  · simp [handleSubmit, submitBody, h1, h2, containsContractCall, Event.isContractCall] at h
  · rfl

/-- Witness for C1: in the all-successful sample run a contract call is
issued, and indeed the file hash is non-empty and the metadata upload
resolved. -/
theorem contract_call_requires_successful_uploads_witness :
    containsContractCall (handleSubmit sampleEnvOk sampleState).2 = true ∧
      (sampleState.formData.imageHash ≠ "" ∧ sampleEnvOk.uploadJSONResult.isOk = true) :=
  ⟨by decide, contract_call_requires_successful_uploads sampleEnvOk sampleState (by decide)⟩

/-- Claim C2: whenever the file-content-hash field is empty, or no
wallet account is connected, or no contract client is available, no
contract call is issued; and on a fresh submission attempt (no
submission already in flight, where the earlier guard would return
first) the handler surfaces a single error toast and returns with the
state unchanged. -/
theorem precondition_failure_blocks_submission (env : SubmitEnv) (s : ComponentState)
    (hpre : s.formData.imageHash = "" ∨ env.account = none ∨ env.contract = false) :
    containsContractCall (handleSubmit env s).2 = false ∧
      (s.isSubmitting = false →
        (handleSubmit env s).1 = s ∧
          ∃ m, (handleSubmit env s).2 = [Event.toastError m]) := by
  by_cases h1 : s.isSubmitting
  · constructor
    · simp [handleSubmit, h1, containsContractCall]
    · intro hfalse
      rw [h1] at hfalse
      cases hfalse
  by_cases h2 : s.formData.imageHash = ""
  · refine ⟨?_, fun _ => ⟨?_, "Please upload a certificate file first", ?_⟩⟩ <;>
      simp [handleSubmit, h1, h2, containsContractCall, Event.isContractCall]
  rcases hpre with hpre | hpre | hpre
  · exact absurd hpre h2
  · refine ⟨?_, fun _ => ⟨?_, "Please connect your wallet first", ?_⟩⟩ <;>
      simp [handleSubmit, h1, h2, hpre, containsContractCall, Event.isContractCall]
  · rcases hacc : env.account with _ | a
    · refine ⟨?_, fun _ => ⟨?_, "Please connect your wallet first", ?_⟩⟩ <;>
        simp [handleSubmit, h1, h2, hacc, containsContractCall, Event.isContractCall]
    · refine ⟨?_, fun _ => ⟨?_, "Contract not initialized", ?_⟩⟩ <;>
        simp [handleSubmit, h1, h2, hacc, hpre, containsContractCall, Event.isContractCall]

/-- Witness for C2: with the wallet disconnected, the sample submission
issues no contract call, leaves the state unchanged and surfaces one
error toast. -/
theorem precondition_failure_blocks_submission_witness :
    (sampleState.formData.imageHash = "" ∨ envNoWallet.account = none ∨
        envNoWallet.contract = false) ∧
      containsContractCall (handleSubmit envNoWallet sampleState).2 = false ∧
        (sampleState.isSubmitting = false →
          (handleSubmit envNoWallet sampleState).1 = sampleState ∧
            ∃ m, (handleSubmit envNoWallet sampleState).2 = [Event.toastError m]) :=
  ⟨Or.inr (Or.inl rfl),
   precondition_failure_blocks_submission envNoWallet sampleState (Or.inr (Or.inl rfl))⟩

/-- Claim C4: an invocation of handleSubmit while a submission is in
flight (isSubmitting set) returns the state unchanged and performs no
effect at all. -/
theorem inflight_submission_noop (env : SubmitEnv) (s : ComponentState)
    (h : s.isSubmitting = true) :
    handleSubmit env s = (s, []) := by
  simp [handleSubmit, h]

/-- Witness for C4: the in-flight sample state is returned unchanged
with no effects even in the all-successful environment. -/
theorem inflight_submission_noop_witness :
    inFlightState.isSubmitting = true ∧
      handleSubmit sampleEnvOk inFlightState = (inFlightState, []) :=
  ⟨rfl, inflight_submission_noop sampleEnvOk inFlightState rfl⟩

/-- Claim C6: the locally computed certificate hash is a deterministic
function of the serialized metadata bytes: any two metadata documents
with the same JSON serialization receive the identical keccak256 hash,
so repeated runs on a fixed document always agree. -/
theorem certificateHash_deterministic (m1 m2 : Metadata)
    (h : stringifyMetadata m1 = stringifyMetadata m2) :
    certificateHash m1 = certificateHash m2 := by
  unfold certificateHash
  rw [h]

/-- Witness for C6: two runs on the sample metadata document produce
the identical hash. -/
theorem certificateHash_deterministic_witness :
    stringifyMetadata sampleMetadata = stringifyMetadata sampleMetadata ∧
      certificateHash sampleMetadata = certificateHash sampleMetadata :=
  ⟨rfl, certificateHash_deterministic sampleMetadata sampleMetadata rfl⟩

/-- Claim C7: a selected file whose MIME type is outside the accepted
set (JPEG, PNG, GIF, PDF, DOCX) is rejected by handleFileChange with an
alert message, before any storage upload is started and with the
component state unchanged. -/
theorem invalid_file_type_rejected (env : FileEnv) (s : ComponentState) (f : SelFile)
    (h : validTypes.contains f.ftype = false) :
    handleFileChange env s (some f) =
      (s, [Event.alertMsg "Please upload an image (JPEG, PNG, GIF), PDF, or DOCX file"]) := by
  have hmem : f.ftype ∉ validTypes := by simpa using h
  simp [handleFileChange, hmem]

/-- Witness for C7: a text/plain file is rejected with the alert and no
upload. -/
theorem invalid_file_type_rejected_witness :
    validTypes.contains plainTextFile.ftype = false ∧
      handleFileChange fileEnvOk sampleState (some plainTextFile) =
        (sampleState,
         [Event.alertMsg "Please upload an image (JPEG, PNG, GIF), PDF, or DOCX file"]) :=
  ⟨by decide, invalid_file_type_rejected fileEnvOk sampleState plainTextFile (by decide)⟩

/-- Claim C8 is violated by the code: handleFileChange performs no size
check, so a PNG one byte over the 10MB limit stated in the component's
own UI text is still uploaded to storage. This theorem evaluates the
handler at that file and shows the storage upload is started. -/
theorem oversized_file_still_uploaded :
    10485760 < oversizedPng.size ∧
      validTypes.contains oversizedPng.ftype = true ∧
        containsUploadImage (handleFileChange fileEnvOk sampleState (some oversizedPng)).2 =
          true := by
  refine ⟨by decide, by decide, ?_⟩
  simp [handleFileChange, fileEnvOk, containsUploadImage, Event.isUploadImage, oversizedPng,
    validTypes]

/-- Claim C9: when the storage upload of the selected (type-valid) file
rejects, the form state is left unchanged — the previously stored
imageHash and imageUrl persist — and only the image preview is cleared
and the uploading flag reset. -/
theorem file_upload_failure_preserves_form (env : FileEnv) (s : ComponentState) (f : SelFile)
    (hty : validTypes.contains f.ftype = true)
    (herr : env.uploadImageResult.isOk = false) :
    handleFileChange env s (some f) =
      ({ s with imagePreview := none, uploading := false }, [Event.uploadImageCall f]) := by
  have hmem : f.ftype ∈ validTypes := by simpa using hty
  rcases henv : env.uploadImageResult with e | hu
  · by_cases himg : f.ftype.startsWith "image/" <;>
      simp [handleFileChange, hmem, henv, himg]
  · rw [henv] at herr
    cases herr

/-- Witness for C9: a failing upload of a small PNG leaves the earlier
file hash in the sample form untouched. -/
theorem file_upload_failure_preserves_form_witness :
    validTypes.contains smallPng.ftype = true ∧
      fileEnvErr.uploadImageResult.isOk = false ∧
        handleFileChange fileEnvErr sampleState (some smallPng) =
          ({ sampleState with imagePreview := none, uploading := false },
           [Event.uploadImageCall smallPng]) :=
  ⟨by decide, by decide,
   file_upload_failure_preserves_form fileEnvErr sampleState smallPng (by decide) (by decide)⟩

/-- Claim C3: when any step of a submission that passed the
preconditions fails — metadata upload, contract call or confirmation
wait — the remaining steps are skipped, the failing step's error toast
is surfaced, and the resulting state is exactly the pre-submission state
with the in-flight flags cleared (step, form fields, file hash and
preview all unchanged). -/
theorem step_failure_aborts_and_preserves_state (env : SubmitEnv) (s : ComponentState)
    (a : String)
    (h1 : s.isSubmitting = false) (h2 : s.formData.imageHash ≠ "")
    (h3 : env.account = some a) (h4 : env.contract = true)
    (hfail : env.uploadJSONResult.isOk = false ∨ env.issueCredentialResult.isOk = false ∨
      env.waitResult.isOk = false) :
    (handleSubmit env s).1 = clearFlags s ∧
      (env.uploadJSONResult.isOk = false →
        Event.toastError "Failed to upload metadata" ∈ (handleSubmit env s).2 ∧
          containsContractCall (handleSubmit env s).2 = false ∧
            containsTxWait (handleSubmit env s).2 = false) ∧
      (env.uploadJSONResult.isOk = true → env.issueCredentialResult.isOk = false →
        Event.toastError "Transaction failed" ∈ (handleSubmit env s).2 ∧
          containsTxWait (handleSubmit env s).2 = false) ∧
      (env.uploadJSONResult.isOk = true → env.issueCredentialResult.isOk = true →
          env.waitResult.isOk = false →
        Event.toastError "Transaction failed" ∈ (handleSubmit env s).2) := by
  rcases env with ⟨acc, c, now, uj, ic, w⟩
  simp only at h3 h4 hfail ⊢
  subst h3
  subst h4
  rcases uj with e | mh <;> rcases ic with e2 | u <;> rcases w with e3 | u2 <;>
    simp_all [handleSubmit, submitBody, h1, h2, clearFlags, startFlags, containsContractCall,
      containsTxWait, Event.isContractCall, Event.isTxWait, Except.isOk, Except.toBool]

/-- Witness for C3: a failing metadata upload in the sample run clears
the flags, surfaces the step's error toast and skips the contract call
and the confirmation wait. -/
theorem step_failure_aborts_and_preserves_state_witness :
    (sampleState.isSubmitting = false ∧ sampleState.formData.imageHash ≠ "" ∧
        envUploadFails.account = some "0x2222222222222222222222222222222222222222" ∧
        envUploadFails.contract = true ∧ envUploadFails.uploadJSONResult.isOk = false) ∧
      (handleSubmit envUploadFails sampleState).1 = clearFlags sampleState ∧
        (envUploadFails.uploadJSONResult.isOk = false →
          Event.toastError "Failed to upload metadata" ∈
              (handleSubmit envUploadFails sampleState).2 ∧
            containsContractCall (handleSubmit envUploadFails sampleState).2 = false ∧
              containsTxWait (handleSubmit envUploadFails sampleState).2 = false) ∧
        (envUploadFails.uploadJSONResult.isOk = true →
            envUploadFails.issueCredentialResult.isOk = false →
          Event.toastError "Transaction failed" ∈ (handleSubmit envUploadFails sampleState).2 ∧
            containsTxWait (handleSubmit envUploadFails sampleState).2 = false) ∧
        (envUploadFails.uploadJSONResult.isOk = true →
            envUploadFails.issueCredentialResult.isOk = true →
            envUploadFails.waitResult.isOk = false →
          Event.toastError "Transaction failed" ∈ (handleSubmit envUploadFails sampleState).2) :=
  ⟨⟨rfl, by decide, rfl, rfl, rfl⟩,
   step_failure_aborts_and_preserves_state envUploadFails sampleState
     "0x2222222222222222222222222222222222222222" rfl (by decide) rfl rfl (Or.inl rfl)⟩

/-- Claim C5: a submission that passes every precondition and whose
external calls all succeed performs exactly the sequence metadata
upload, local certificate hash, contract call with arguments (subject
address, local metadata hash, file hash, storage metadata hash) from the
connected account, confirmation wait, and ends in the success view
(step 2) with the in-flight flags cleared. -/
theorem successful_submission_sequence (env : SubmitEnv) (s : ComponentState)
    (a mh : String)
    (h1 : s.isSubmitting = false) (h2 : s.formData.imageHash ≠ "")
    (h3 : env.account = some a) (h4 : env.contract = true)
    (h5 : env.uploadJSONResult = .ok mh) (h6 : env.issueCredentialResult = .ok ())
    (h7 : env.waitResult = .ok ()) :
    handleSubmit env s =
      ({ clearFlags s with step := 2 },
       [Event.uploadJSONCall (mkMetadata s.formData a env.now),
        Event.toastLoading "Uploading metadata...",
        Event.toastSuccess "Metadata uploaded successfully",
        Event.contractCall s.formData.studentAddress
          (certificateHash (mkMetadata s.formData a env.now)) s.formData.imageHash mh a,
        Event.toastLoading "Confirming transaction...",
        Event.toastSuccess "Transaction sent successfully",
        Event.txWait,
        Event.toastLoading "Waiting for blockchain confirmation...",
        Event.toastSuccess "Credential issued successfully!"]) := by
  rcases env with ⟨acc, c, now, uj, ic, w⟩
  simp only at h3 h4 h5 h6 h7 ⊢
  subst h3; subst h4; subst h5; subst h6; subst h7
  simp [handleSubmit, submitBody, h1, h2, clearFlags, startFlags]

/-- Witness for C5: the all-successful sample run produces exactly the
specified state and effect sequence. -/
theorem successful_submission_sequence_witness :
    (sampleState.isSubmitting = false ∧ sampleState.formData.imageHash ≠ "" ∧
        sampleEnvOk.account = some "0x2222222222222222222222222222222222222222" ∧
        sampleEnvOk.contract = true ∧ sampleEnvOk.uploadJSONResult = .ok "QmMetaHash456" ∧
        sampleEnvOk.issueCredentialResult = .ok () ∧ sampleEnvOk.waitResult = .ok ()) ∧
      handleSubmit sampleEnvOk sampleState =
        ({ clearFlags sampleState with step := 2 },
         [Event.uploadJSONCall (mkMetadata sampleState.formData
            "0x2222222222222222222222222222222222222222" sampleEnvOk.now),
          Event.toastLoading "Uploading metadata...",
          Event.toastSuccess "Metadata uploaded successfully",
          Event.contractCall sampleState.formData.studentAddress
            (certificateHash (mkMetadata sampleState.formData
              "0x2222222222222222222222222222222222222222" sampleEnvOk.now))
            sampleState.formData.imageHash "QmMetaHash456"
            "0x2222222222222222222222222222222222222222",
          Event.toastLoading "Confirming transaction...",
          Event.toastSuccess "Transaction sent successfully",
          Event.txWait,
          Event.toastLoading "Waiting for blockchain confirmation...",
          Event.toastSuccess "Credential issued successfully!"]) :=
  ⟨⟨rfl, by decide, rfl, rfl, rfl, rfl, rfl⟩,
   successful_submission_sequence sampleEnvOk sampleState
     "0x2222222222222222222222222222222222222222" "QmMetaHash456" rfl (by decide) rfl rfl rfl
     rfl rfl⟩

/-- Counterexample to claim C10 as stated: a run of handleSubmit that
fails a precondition check returns before the try/finally, so a run
started with the uploading flag set and an empty file hash terminates
with uploading still set — not every run of handleSubmit ends with the
three flags cleared. -/
theorem flags_not_cleared_on_early_return :
    uploadingEmptyHashState.uploading = true ∧
      (handleSubmit sampleEnvOk uploadingEmptyHashState).2 =
        [Event.toastError "Please upload a certificate file first"] ∧
      (handleSubmit sampleEnvOk uploadingEmptyHashState).1.uploading = true := by
  refine ⟨rfl, ?_, ?_⟩ <;> decide

/-- Claim C10, amended: every run of handleSubmit that passes the
in-flight guard and the three precondition checks — exactly the runs
that enter the try/finally, and in particular exactly the runs that set
isSubmitting — terminates with isSubmitting, uploading and
isBlockchainUploading all cleared, so the in-flight guard can never
permanently block a later resubmission; early-returning runs leave the
state untouched. -/
theorem entering_submission_clears_flags (env : SubmitEnv) (s : ComponentState) (a : String)
    (h1 : s.isSubmitting = false) (h2 : s.formData.imageHash ≠ "")
    (h3 : env.account = some a) (h4 : env.contract = true) :
    (handleSubmit env s).1.isSubmitting = false ∧
      (handleSubmit env s).1.uploading = false ∧
        (handleSubmit env s).1.isBlockchainUploading = false := by
  rcases env with ⟨acc, c, now, uj, ic, w⟩
  simp only at h3 h4 ⊢
  subst h3; subst h4
  rcases uj with e | mh <;> rcases ic with e2 | u <;> rcases w with e3 | u2 <;>
    simp [handleSubmit, submitBody, h1, h2, clearFlags, startFlags]

/-- Witness for the amended C10: the all-successful sample run ends with
all three flags cleared. -/
theorem entering_submission_clears_flags_witness :
    (sampleState.isSubmitting = false ∧ sampleState.formData.imageHash ≠ "" ∧
        sampleEnvOk.account = some "0x2222222222222222222222222222222222222222" ∧
        sampleEnvOk.contract = true) ∧
      (handleSubmit sampleEnvOk sampleState).1.isSubmitting = false ∧
        (handleSubmit sampleEnvOk sampleState).1.uploading = false ∧
          (handleSubmit sampleEnvOk sampleState).1.isBlockchainUploading = false :=
  ⟨⟨rfl, by decide, rfl, rfl⟩,
   entering_submission_clears_flags sampleEnvOk sampleState
     "0x2222222222222222222222222222222222222222" rfl (by decide) rfl rfl⟩

end CredentialUpload
